import Mathlib

/-!
Verification of the passport-export pipeline of the security-passport
repository (src/apps/api/app/api/passport.py and its collaborators
src/apps/api/app/services/passport_docx.py and
src/apps/api/app/core/tenant_overrides.py).

The relational store is embedded as lists of rows (one structure per table,
nullable columns as `Option`); SQL queries become list filters, Python dicts
become association-list lookups, and raised exceptions become `Except`
errors.  Python string operations used by the code (`PurePosixPath(...).name`,
`str.replace`, `re.sub`, `str.strip`, slicing, lexicographic ordering used by
`ORDER BY key ASC`) are implemented over `List Char` so every definition
evaluates inside the kernel.
-/

namespace SecurityPassport

/-! ## Character and string primitives -/

/-- Characters kept verbatim by the regex `[^A-Za-z0-9._ -]` substitution in
`_safe_zip_name`: ASCII letters, digits, dot, underscore, space and hyphen. -/
def allowedChar (c : Char) : Bool :=
  (decide ('A'.toNat ≤ c.toNat) && decide (c.toNat ≤ 'Z'.toNat)) ||
  (decide ('a'.toNat ≤ c.toNat) && decide (c.toNat ≤ 'z'.toNat)) ||
  (decide ('0'.toNat ≤ c.toNat) && decide (c.toNat ≤ '9'.toNat)) ||
  c == '.' || c == '_' || c == ' ' || c == '-'

/-- Python `str.strip` whitespace set (ASCII part). -/
def isPySpace (c : Char) : Bool :=
  c == ' ' || c == '\t' || c == '\n' || c == '\r' || c == '\x0b' || c == '\x0c'

/-- `l1` is a prefix of `l2` (needed for substring checks). -/
def isPrefixOfL : List Char → List Char → Bool
  | [], _ => true
  | _ :: _, [] => false
  | a :: as, b :: bs => a == b && isPrefixOfL as bs

/-- `needle` occurs as a contiguous substring of `hay`. -/
def containsL (needle : List Char) : List Char → Bool
  | [] => isPrefixOfL needle []
  | b :: bs => isPrefixOfL needle (b :: bs) || containsL needle bs

/-- Lexicographic comparison by code point; the embedding of the text ordering
used by `ORDER BY q.key ASC`. -/
def lexLe : List Char → List Char → Bool
  | [], _ => true
  | _ :: _, [] => false
  | a :: as, b :: bs =>
    if a.toNat = b.toNat then lexLe as bs else decide (a.toNat < b.toNat)

/-- String comparison used to model the SQL ascending key order. -/
def strLe (s t : String) : Bool := lexLe s.toList t.toList

/-- Python `str.strip`: drop leading and trailing whitespace. -/
def stripChars (l : List Char) : List Char :=
  ((l.dropWhile isPySpace).reverse.dropWhile isPySpace).reverse

/-- Python `str.strip` lifted to `String` (used by the renderer). -/
def pyStrip (s : String) : String := String.mk (stripChars s.toList)

/-- Python `s or fallback` for strings: `""` is falsy. -/
def pyOrS (s fallback : String) : String := if s == "" then fallback else s

/-- Split a character list at `'/'` (components of a POSIX path). -/
def splitSlash : List Char → List (List Char)
  | [] => [[]]
  | c :: rest =>
    let r := splitSlash rest
    if c == '/' then [] :: r
    else
      match r with
      | [] => [[c]]
      | h :: t => (c :: h) :: t

/-- `PurePosixPath(s).name`: the last path component, after dropping empty
components and bare `"."` components; `[]` when none remain. -/
def posixName (l : List Char) : List Char :=
  (((splitSlash l).filter (fun c => !(c == []) && !(c == ['.']))).getLast?).getD []

/-- Python `base.replace("..", ".")`: non-overlapping left-to-right
replacement of `".."` by `"."`. -/
def replaceDotDot : List Char → List Char
  | '.' :: '.' :: rest => '.' :: replaceDotDot rest
  | c :: rest => c :: replaceDotDot rest
  | [] => []

/-- Worker for `re.sub(r"[^A-Za-z0-9._ -]+", "_", ...)`: each maximal run of
disallowed characters becomes one underscore.  The flag records whether the
previous character was part of a disallowed run. -/
def squashAux : Bool → List Char → List Char
  | _, [] => []
  | prevBad, c :: rest =>
    if allowedChar c then c :: squashAux false rest
    else if prevBad then squashAux true rest
    else '_' :: squashAux true rest

/-- `re.sub(r"[^A-Za-z0-9._ -]+", "_", base)`. -/
def squash (l : List Char) : List Char := squashAux false l

/-- The sanitization pipeline of `_safe_zip_name` before the fallback and
truncation steps: POSIX basename, `".."` replacement, disallowed-character
collapse, whitespace strip. -/
def sanitized_base (name : String) : List Char :=
  stripChars (squash (replaceDotDot (posixName name.toList)))

/-- Embeds `_safe_zip_name` (src/apps/api/app/api/passport.py, lines 22-28):
take the POSIX basename, replace `".."` by `"."`, collapse disallowed
characters to underscores, strip whitespace, fall back when empty, and
truncate to 120 characters. -/
def safe_zip_name (name fallback : String) : String :=
  let base := sanitized_base name
  let base := if base.isEmpty then fallback.toList else base
  String.mk (base.take 120)

/-! ## Store rows

One structure per physical table read by `_build_pack_via_db`
(migration ae3852e415da names the columns; nullable columns are `Option`). -/

/-- A row of `questionnaire_templates`. -/
structure TemplateRow where
  id : String
  code : String
  name : String
  version : String
  language : String
deriving DecidableEq

/-- A row of `questionnaire_questions`. -/
structure QuestionRow where
  id : String
  template_id : String
  key : String
  prompt : String
deriving DecidableEq

/-- A row of the answers table (`tenant_answers` or a drift variant).  The
code probes per-table for a `question_id` column and per-row for a truthy
`question_key`, so both are `Option` here; the table-level column-existence
flags live on `Store`. -/
structure AnswerRow where
  id : String
  tenant_id : String
  question_id : Option String
  question_key : Option String
  answer_text : Option String
  updated_at : Option String
  created_at : Option String
deriving DecidableEq

/-- A row of the answer-evidence link table (`tenant_answer_evidence` or a
drift variant). -/
structure LinkRow where
  tenant_id : String
  answer_id : String
  evidence_id : String
deriving DecidableEq

/-- A row of `evidence_items`; timestamps are kept as their ISO-8601
rendering. -/
structure EvidenceRow where
  id : String
  tenant_id : String
  title : Option String
  description : Option String
  original_filename : Option String
  uploaded_at : Option String
  storage_key : Option String
  content_hash : Option String
deriving DecidableEq

/-- A stored JSON value inside the `tenant_overrides.settings` map.  The
export only ever reads the two inclusion keys, whose validated writes are
booleans; drifted or hand-written rows may hold other JSON types. -/
inductive OValue where
  | b (v : Bool)
  | i (n : Int)
  | s (v : String)
  | null
deriving DecidableEq

/-- Python truthiness of a stored value, as evaluated by
`if include_evidence:` in `_apply_passport_overrides`. -/
def OValue.truthy : OValue → Bool
  | .b v => v
  | .i n => decide (n ≠ 0)
  | .s v => !(v == "")
  | .null => false

/-- Whether a stored value is a boolean (the only type `validate_overrides`
lets through for the two inclusion keys). -/
def OValue.isBool : OValue → Bool
  | .b _ => true
  | _ => false

/-- A row of `tenant_overrides`; `settings` is a nullable JSON object. -/
structure OverrideRow where
  tenant_id : String
  settings : Option (List (String × OValue))

/-- The relational store as seen by one export request.  `hasQuestionId` and
`hasQuestionKey` record whether the answers table has those columns
(`"question_id" in a.c` and the per-row `question_key` probe); `linkTable`
is `none` when no candidate link-table name exists. -/
structure Store where
  templates : List TemplateRow
  questions : List QuestionRow
  hasQuestionId : Bool
  hasQuestionKey : Bool
  answers : List AnswerRow
  linkTable : Option (List LinkRow)
  evidence : List EvidenceRow
  overrideRows : List OverrideRow

/-! ## Pack -/

/-- `pack["template"]`. -/
structure PackTemplate where
  code : String
  name : String
  version : String
  language : String
deriving DecidableEq

/-- One entry of `pack["answers"]`; `evidence_ids = none` models the absent
dict key. -/
structure AnswerView where
  question_key : String
  question_prompt : String
  answer_text : Option String
  updated_at : Option String
  evidence_ids : Option (List String)
deriving DecidableEq

/-- One entry of `pack["evidence"]`. -/
structure EvidenceView where
  id : String
  title : Option String
  description : Option String
  original_filename : Option String
  uploaded_at : Option String
  storage_key : Option String
  content_hash : Option String
deriving DecidableEq

/-- The assembled pack. -/
structure Pack where
  template : PackTemplate
  tenant_id : String
  generated_at : String
  answers : List AnswerView
  evidence : List EvidenceView
deriving DecidableEq

/-- Exceptions that can escape the export endpoints.  FastAPI surfaces an
`HTTPException` with its own status code; every other uncaught exception
becomes a 500 server error, so only `httpException` values in the 4xx range
reach the caller as client errors. -/
inductive PyError where
  | valueError (msg : String)
  | runtimeError (msg : String)
  | httpException (status : Nat) (detail : String)
deriving DecidableEq

/-- Whether FastAPI would surface this exception as a 4xx client error. -/
def PyError.isClientError : PyError → Bool
  | .httpException st _ => decide (400 ≤ st) && decide (st < 500)
  | _ => false

/-! ## Pack assembly (`_build_pack_via_db`) -/

/-- `session.execute(select(t).where(t.c.code == template_code)).first()`. -/
def template_query (s : Store) (template_code : String) : Option TemplateRow :=
  s.templates.find? (fun t => decide (t.code = template_code))

/-- Insert a question into a list kept ascending by key. -/
def insertByKey (x : QuestionRow) : List QuestionRow → List QuestionRow
  | [] => [x]
  | y :: ys => if strLe x.key y.key then x :: y :: ys else y :: insertByKey x ys

/-- Insertion sort by question key: the embedding of `ORDER BY q.key ASC`. -/
def sortByKey : List QuestionRow → List QuestionRow
  | [] => []
  | x :: xs => insertByKey x (sortByKey xs)

/-- `select(q).where(q.c.template_id == tpl_row["id"]).order_by(q.c.key.asc())`. -/
def questions_query (s : Store) (tpl : TemplateRow) : List QuestionRow :=
  sortByKey (s.questions.filter (fun q => decide (q.template_id = tpl.id)))

/-- `a.c.question_id.in_(question_ids)` for one row (SQL `IN`; NULL never
matches). -/
def qidIn (r : AnswerRow) (qids : List String) : Bool :=
  match r.question_id with
  | some q => qids.contains q
  | none => false

/-- The answers load: scoped to the tenant, and additionally to the
template's question ids when the table has a `question_id` column and the
question list is non-empty (lines 106-111 of passport.py). -/
def answers_query (s : Store) (tenant : String) (qids : List String) : List AnswerRow :=
  if !qids.isEmpty && s.hasQuestionId then
    s.answers.filter (fun r => decide (r.tenant_id = tenant) && qidIn r qids)
  else
    s.answers.filter (fun r => decide (r.tenant_id = tenant))

/-- Last row of `rows` satisfying `p` — the value a Python dict built by
iterating `rows` holds for a key (later inserts overwrite earlier ones). -/
def last_match (p : AnswerRow → Bool) (rows : List AnswerRow) : Option AnswerRow :=
  rows.foldl (fun acc r => if p r then some r else acc) none

/-- Answer resolution for one question: prefer the `by_qid` index (rows with
a non-NULL `question_id`, when the column exists), fall back to the `by_key`
index (rows with a truthy `question_key`). -/
def find_answer (hasQid hasQKey : Bool) (arows : List AnswerRow) (qu : QuestionRow) :
    Option AnswerRow :=
  match last_match (fun r => hasQid && decide (r.question_id = some qu.id)) arows with
  | some r => some r
  | none =>
    last_match
      (fun r => hasQKey && decide (r.question_key = some qu.key ∧ ¬ qu.key = "")) arows

/-- `link_rows` filtered to the tenant; `[]` when no link table exists. -/
def tenant_links (s : Store) (tenant : String) : List LinkRow :=
  match s.linkTable with
  | none => []
  | some ls => ls.filter (fun l => decide (l.tenant_id = tenant))

/-- `ev_ids_by_answer.get(ans["id"], [])`: evidence ids grouped (in link-row
order) under one answer id. -/
def ev_ids_for_answer (links : List LinkRow) (aid : String) : List String :=
  (links.filter (fun l => decide (l.answer_id = aid))).map (fun l => l.evidence_id)

/-- The per-question loop of `_build_pack_via_db` (lines 129-155): build the
AnswerViews in question order, skipping questions without an answer, while
accumulating the referenced evidence ids (`all_ev_ids`). -/
def build_views (hasQid hasQKey : Bool) (arows : List AnswerRow) (links : List LinkRow) :
    List QuestionRow → List AnswerView × List String
  | [] => ([], [])
  | qu :: qs =>
    let rest := build_views hasQid hasQKey arows links qs
    match find_answer hasQid hasQKey arows qu with
    | none => rest
    | some ans =>
      let evIds := ev_ids_for_answer links ans.id
      ({ question_key := qu.key
         question_prompt := qu.prompt
         answer_text := ans.answer_text
         updated_at := ans.updated_at.orElse (fun _ => ans.created_at)
         evidence_ids := if evIds.isEmpty then none else some evIds } :: rest.1,
       evIds ++ rest.2)

/-- Projection of an evidence row into the pack (lines 162-173). -/
def evidence_view (er : EvidenceRow) : EvidenceView :=
  { id := er.id
    title := er.title
    description := er.description
    original_filename := er.original_filename
    uploaded_at := er.uploaded_at
    storage_key := er.storage_key
    content_hash := er.content_hash }

/-- The evidence load (lines 157-173): only when some id was referenced, and
scoped to the tenant and the referenced-id set. -/
def evidence_query (s : Store) (tenant : String) (refIds : List String) : List EvidenceView :=
  if refIds.isEmpty then []
  else
    (s.evidence.filter (fun er => decide (er.tenant_id = tenant ∧ er.id ∈ refIds))).map
      evidence_view

/-- Embeds `_build_pack_via_db` (src/apps/api/app/api/passport.py, lines
31-175).  The required tables (template, question, answer, evidence) are
assumed resolved — `pick_table` succeeded; the optional link table is
`Store.linkTable`.  `now` stands for `datetime.utcnow().isoformat()`. -/
def build_pack_via_db (s : Store) (tenant template_code now : String) :
    Except PyError Pack :=
  match template_query s template_code with
  | none => .error (.valueError ("Unknown template: " ++ template_code))
  | some tpl =>
    let qs := questions_query s tpl
    let qids := qs.map QuestionRow.id
    let arows := answers_query s tenant qids
    let links := tenant_links s tenant
    let vr := build_views s.hasQuestionId s.hasQuestionKey arows links qs
    .ok
      { template :=
          { code := tpl.code, name := tpl.name, version := tpl.version,
            language := tpl.language }
        tenant_id := tenant
        generated_at := now
        answers := vr.1
        evidence := evidence_query s tenant vr.2 }

/-! ## Tenant overrides -/

/-- Dict lookup in a settings map (keys are unique in a JSON object; the
first binding wins). -/
def lookup_override (m : List (String × OValue)) (k : String) : Option OValue :=
  (m.find? (fun p => decide (p.1 = k))).map (fun p => p.2)

/-- Embeds `get_overrides` (src/apps/api/app/core/tenant_overrides.py, lines
64-69): the tenant's settings map, `{}` when the row is absent or its
`settings` column is NULL. -/
def get_overrides (rows : List OverrideRow) (tenant : String) : List (String × OValue) :=
  match rows.find? (fun r => decide (r.tenant_id = tenant)) with
  | none => []
  | some r => r.settings.getD []

/-- Embeds `_apply_passport_overrides` (src/apps/api/app/api/passport.py,
lines 176-189): `overrides.get(include_key, True)` evaluated for Python
truthiness; when falsy, a copy of the pack with `evidence` emptied and every
answer's `evidence_ids` key removed. -/
def apply_passport_overrides (pack : Pack) (overrides : List (String × OValue))
    (include_key : String) : Pack :=
  let include_evidence := (lookup_override overrides include_key).getD (OValue.b true)
  if include_evidence.truthy then pack
  else
    { pack with
      evidence := []
      answers := pack.answers.map (fun a => { a with evidence_ids := none }) }

/-! ## Document renderer (`render_docx_bytes`)

python-docx output is abstracted as the ordered list of block elements the
code emits.  A paragraph's runs are concatenated into one text; the API's
page-break operation is kept as a constructor so that claims about page
boundaries are statable (the source never calls it). -/

/-- One block element of the rendered document. -/
inductive DocElem where
  | heading (text : String) (level : Nat)
  | para (text : String)
  | pageBreak
deriving DecidableEq

/-- `if cond: doc.add_paragraph(...)` — one optional paragraph. -/
def optPara (cond : Bool) (text : String) : List DocElem :=
  if cond then [DocElem.para text] else []

/-- The title/header block of `render_docx_bytes`
(src/apps/api/app/services/passport_docx.py, lines 7-28). -/
def render_header (p : Pack) : List DocElem :=
  [DocElem.heading (pyOrS p.template.name "Security Passport") 1,
   DocElem.para ("Template: " ++ pyStrip (p.template.code ++ " " ++ p.template.version))]
  ++ optPara (!(p.tenant_id == "")) ("Tenant: " ++ p.tenant_id)
  ++ optPara (!(p.generated_at == "")) ("Generated: " ++ p.generated_at)
  ++ [DocElem.para ""]

/-- One AnswerView section of `render_docx_bytes` (lines 30-60). -/
def render_answer (a : AnswerView) : List DocElem :=
  let key := a.question_key
  let answer_text := a.answer_text.getD ""
  let updated_at := a.updated_at.getD ""
  let ev_ids := a.evidence_ids.getD []
  [DocElem.heading (pyOrS (pyStrip a.question_prompt) (pyOrS (pyStrip key) "Question")) 2]
  ++ optPara (!(key == "")) ("Key: " ++ key)
  ++ (if answer_text == "" then []
      else [DocElem.para "Answer: ", DocElem.para answer_text])
  ++ optPara (!(updated_at == "")) ("Updated: " ++ updated_at)
  ++ optPara (!ev_ids.isEmpty) ("Evidence IDs: " ++ String.intercalate ", " ev_ids)
  ++ [DocElem.para ""]

/-- Embeds `render_docx_bytes` (src/apps/api/app/services/passport_docx.py,
lines 6-64): the header block followed by one section per AnswerView.  The
function never reads `pack["evidence"]`. -/
def render_docx_bytes (p : Pack) : List DocElem :=
  render_header p ++ (p.answers.map render_answer).flatten

/-! ## Archive packager (`export_passport_zip`) -/

/-- Payload of one archive entry.  Serialization (JSON dump, docx bytes) is
abstracted by injective constructors on the serialized value. -/
inductive EntryData where
  | text (s : String)
  | jsonPack (p : Pack)
  | docxDoc (d : List DocElem)
  | fileBytes (b : List Nat)
deriving DecidableEq

/-- One entry of the produced ZIP archive. -/
structure ZipEntry where
  path : String
  data : EntryData
deriving DecidableEq

/-- Outcome of attempting to download one storage key: either the streamed
bytes, or the exception class name raised by `get_download_url`, the HTTP
request, or `raise_for_status` (network error / non-success status). -/
inductive DownloadOutcome where
  | ok (content : List Nat)
  | failed (exName : String)
deriving DecidableEq

/-- The archive name of one evidence file:
`_safe_zip_name(ev.get("original_filename") or "", f"...bin")` (line 245). -/
def zip_file_name (ev : EvidenceView) : String :=
  safe_zip_name (pyOrS (ev.original_filename.getD "") "") (ev.id ++ ".bin")

/-- The per-evidence download loop of `export_passport_zip` (lines 238-260):
returns the file entries written and the failure lines recorded, in order.
`dl` maps a storage key to its download outcome. -/
def process_evidence (dl : String → DownloadOutcome) :
    List EvidenceView → List ZipEntry × List String
  | [] => ([], [])
  | ev :: rest =>
    let r := process_evidence dl rest
    match ev.storage_key with
    | none => (r.1, (ev.id ++ " missing_storage_key") :: r.2)
    | some sk =>
      if sk == "" then (r.1, (ev.id ++ " missing_storage_key") :: r.2)
      else
        match dl sk with
        | .ok bytes =>
          (ZipEntry.mk ("evidence/files/" ++ zip_file_name ev) (.fileBytes bytes) :: r.1,
           r.2)
        | .failed exName =>
          (r.1, (ev.id ++ " " ++ zip_file_name ev ++ " " ++ exName) :: r.2)

/-- The archive layout produced by `export_passport_zip` (lines 226-263):
`pack.json`, the rendered document, then — when evidence is non-empty — the
README and count manifest, the successfully downloaded files, and the failed
downloads entry when at least one failure was recorded. -/
def export_zip_entries (pack : Pack) (dl : String → DownloadOutcome) : List ZipEntry :=
  if pack.evidence.isEmpty then
    [ZipEntry.mk "pack.json" (.jsonPack pack),
     ZipEntry.mk "security_passport.docx" (.docxDoc (render_docx_bytes pack))]
  else
    [ZipEntry.mk "pack.json" (.jsonPack pack),
     ZipEntry.mk "security_passport.docx" (.docxDoc (render_docx_bytes pack))]
    ++ [ZipEntry.mk "evidence/README.txt" (.text "Evidence files attached to answers.\n"),
        ZipEntry.mk "evidence/_meta.txt"
          (.text ("count=" ++ toString pack.evidence.length ++ "\n"))]
    ++ (process_evidence dl pack.evidence).1
    ++ (if (process_evidence dl pack.evidence).2.isEmpty then []
        else
          [ZipEntry.mk "evidence/_FAILED_DOWNLOADS.txt"
            (.text (String.intercalate "\n" (process_evidence dl pack.evidence).2 ++ "\n"))])

/-- Embeds the `GET /passport/{template_code}.zip` endpoint body (lines
216-271): overrides are read, the pack assembled, the zip override key
applied, and the archive built; an exception raised by assembly propagates
(FastAPI then answers 500 for anything but an `HTTPException`). -/
def export_passport_zip (s : Store) (tenant template_code now : String)
    (dl : String → DownloadOutcome) : Except PyError (List ZipEntry) :=
  match build_pack_via_db s tenant template_code now with
  | .error e => .error e
  | .ok pack =>
    let pack :=
      apply_passport_overrides pack (get_overrides s.overrideRows tenant)
        "passport_zip_include_evidence"
    .ok (export_zip_entries pack dl)

/-- Embeds the `GET /passport/{template_code}.docx` endpoint body (lines
198-212): same pipeline with the docx override key, returning the rendered
document. -/
def export_passport_docx (s : Store) (tenant template_code now : String) :
    Except PyError (List DocElem) :=
  match build_pack_via_db s tenant template_code now with
  | .error e => .error e
  | .ok pack =>
    let pack :=
      apply_passport_overrides pack (get_overrides s.overrideRows tenant)
        "passport_docx_include_evidence"
    .ok (render_docx_bytes pack)

/-! ## Characterizations and specification-side predicates -/

deriving instance DecidableEq for Except

/-- Characterization of one loop iteration of `export_passport_zip` that
writes a file entry: the archive entry produced for an evidence item whose
download succeeds, `none` when the item fails. -/
def successful_entry (dl : String → DownloadOutcome) (ev : EvidenceView) : Option ZipEntry :=
  match ev.storage_key with
  | none => none
  | some sk =>
    if sk == "" then none
    else
      match dl sk with
      | .ok bytes => some (ZipEntry.mk ("evidence/files/" ++ zip_file_name ev) (.fileBytes bytes))
      | .failed _ => none

/-- Characterization of one loop iteration of `export_passport_zip` that
records a failure: the failure line produced for an evidence item whose
download fails, `none` when it succeeds. -/
def failure_line (dl : String → DownloadOutcome) (ev : EvidenceView) : Option String :=
  match ev.storage_key with
  | none => some (ev.id ++ " missing_storage_key")
  | some sk =>
    if sk == "" then some (ev.id ++ " missing_storage_key")
    else
      match dl sk with
      | .ok _ => none
      | .failed exName => some (ev.id ++ " " ++ zip_file_name ev ++ " " ++ exName)

/-- The spec's Pack invariant: every referenced evidence id occurs among the
evidence list's ids, those ids are duplicate-free, and every evidence item is
referenced by some AnswerView. -/
def pack_evidence_invariant (p : Pack) : Prop :=
  (∀ v ∈ p.answers, ∀ i ∈ v.evidence_ids.getD [], i ∈ p.evidence.map EvidenceView.id) ∧
  (p.evidence.map EvidenceView.id).Nodup ∧
  (∀ ev ∈ p.evidence, ∃ v ∈ p.answers, ev.id ∈ v.evidence_ids.getD [])

/-- The visible text of a rendered block element. -/
def elem_text : DocElem → String
  | .heading t _ => t
  | .para t => t
  | .pageBreak => ""

/-- Some element of the document shows the string `s` (as a substring of its
text). -/
def doc_mentions (d : List DocElem) (s : String) : Prop :=
  ∃ e ∈ d, containsL s.toList (elem_text e).toList = true

/-- Formalization of the spec sentence for the renderer: when evidence is
non-empty, the document contains a page boundary and, for each EvidenceView,
a section showing its original filename, content hash and storage key. -/
def spec_evidence_sections_rendered (p : Pack) : Prop :=
  p.evidence ≠ [] →
    DocElem.pageBreak ∈ render_docx_bytes p ∧
    ∀ ev ∈ p.evidence,
      doc_mentions (render_docx_bytes p) (ev.original_filename.getD "") ∧
      doc_mentions (render_docx_bytes p) (ev.content_hash.getD "") ∧
      doc_mentions (render_docx_bytes p) (ev.storage_key.getD "")

/-- Formalization of the claimed sanitizer contract: non-empty bounded
output over the restricted character set, no path separator, no `".."`
traversal sequence, and equal to the fallback exactly when sanitization
yields the empty string. -/
def spec_safe_name_ok (name fallback : String) : Prop :=
  (safe_zip_name name fallback).toList ≠ [] ∧
  (safe_zip_name name fallback).toList.length ≤ 120 ∧
  '/' ∉ (safe_zip_name name fallback).toList ∧
  containsL ['.', '.'] (safe_zip_name name fallback).toList = false ∧
  (∀ c ∈ (safe_zip_name name fallback).toList, allowedChar c = true) ∧
  ((safe_zip_name name fallback = fallback) ↔ sanitized_base name = [])

/-! ## Concrete stores and packs for counterexamples and witnesses -/

/-- Store whose link table cites an evidence item owned by another tenant:
the FK constraints of migration ae3852e415da do not force the link's tenant
to match the evidence item's tenant. -/
def c1x_store : Store :=
  { templates := [⟨"t1", "iso27001", "ISO 27001", "1", "en"⟩]
    questions := [⟨"q1", "t1", "k1", "Prompt one"⟩]
    hasQuestionId := true
    hasQuestionKey := false
    answers := [⟨"a1", "ten1", some "q1", none, some "We encrypt at rest.",
                 some "2026-01-01", none⟩]
    linkTable := some [⟨"ten1", "a1", "e1"⟩]
    evidence := [⟨"e1", "ten2", some "Policy", none, some "pol.pdf",
                  some "2026-01-02", some "t/ev1/abc", some "hash1"⟩]
    overrideRows := [] }

/-- The pack `c1x_store` assembles for tenant `ten1`: the answer references
evidence id `e1`, but the evidence list is empty. -/
def c1x_pack : Pack :=
  { template := ⟨"iso27001", "ISO 27001", "1", "en"⟩
    tenant_id := "ten1"
    generated_at := "2026-01-01T00:00:00"
    answers := [{ question_key := "k1", question_prompt := "Prompt one",
                  answer_text := some "We encrypt at rest.",
                  updated_at := some "2026-01-01",
                  evidence_ids := some ["e1"] }]
    evidence := [] }

/-- A tenant-consistent store (the link's evidence item belongs to the same
tenant). -/
def c1w_store : Store :=
  { templates := [⟨"t1", "iso27001", "ISO 27001", "1", "en"⟩]
    questions := [⟨"q1", "t1", "k1", "Prompt one"⟩]
    hasQuestionId := true
    hasQuestionKey := false
    answers := [⟨"a1", "ten1", some "q1", none, some "We encrypt at rest.",
                 some "2026-01-01", none⟩]
    linkTable := some [⟨"ten1", "a1", "e1"⟩]
    evidence := [⟨"e1", "ten1", some "Policy", none, some "pol.pdf",
                  some "2026-01-02", some "t/ev1/abc", some "hash1"⟩]
    overrideRows := [] }

/-- The pack `c1w_store` assembles for tenant `ten1`. -/
def c1w_pack : Pack :=
  { template := ⟨"iso27001", "ISO 27001", "1", "en"⟩
    tenant_id := "ten1"
    generated_at := "2026-01-01T00:00:00"
    answers := [{ question_key := "k1", question_prompt := "Prompt one",
                  answer_text := some "We encrypt at rest.",
                  updated_at := some "2026-01-01",
                  evidence_ids := some ["e1"] }]
    evidence := [⟨"e1", some "Policy", none, some "pol.pdf", some "2026-01-02",
                  some "t/ev1/abc", some "hash1"⟩] }

/-- A well-formed pack with one evidence item carrying distinctive strings
that the renderer would have to show. -/
def c2x_pack : Pack :=
  { template := ⟨"iso27001", "ISO 27001", "1", "en"⟩
    tenant_id := "ten1"
    generated_at := "2026-01-01T00:00:00"
    answers := [{ question_key := "k1", question_prompt := "Prompt one",
                  answer_text := some "Yes.", updated_at := some "2026-01-01",
                  evidence_ids := some ["e1"] }]
    evidence := [⟨"e1", some "Policy", some "Our policy", some "evidence-file.pdf",
                  some "2026-01-02", some "store-key-e1", some "hash-e1"⟩] }

/-- A store holding no template at all. -/
def c3x_store : Store :=
  { templates := [], questions := [], hasQuestionId := true, hasQuestionKey := false
    answers := [], linkTable := none, evidence := [], overrideRows := [] }

/-- A store with one template whose code differs from the requested one. -/
def c3w_store : Store :=
  { templates := [⟨"t1", "soc2", "SOC 2", "1", "en"⟩]
    questions := [], hasQuestionId := true, hasQuestionKey := false
    answers := [], linkTable := none, evidence := [], overrideRows := [] }

/-- A pack with one downloadable evidence item and one item lacking a
storage key. -/
def c4w_pack : Pack :=
  { template := ⟨"iso27001", "ISO 27001", "1", "en"⟩
    tenant_id := "ten1"
    generated_at := "2026-01-01T00:00:00"
    answers := [{ question_key := "k1", question_prompt := "Prompt one",
                  answer_text := some "Yes.", updated_at := none,
                  evidence_ids := some ["e1", "e2"] }]
    evidence := [⟨"e1", some "Policy", none, some "pol.pdf", some "2026-01-02",
                  some "t/ev1/abc", some "hash1"⟩,
                 ⟨"e2", some "Draft", none, none, none, none, none⟩] }

/-- Download outcomes: the first item's key succeeds, every other key fails
with a non-success HTTP status. -/
def c4w_dl : String → DownloadOutcome :=
  fun k => if k == "t/ev1/abc" then .ok [1, 2, 3] else .failed "HTTPStatusError"

/-- An override map storing a malformed (non-boolean, falsy) value under the
zip inclusion key. -/
def c5x_overrides : List (String × OValue) :=
  [("passport_zip_include_evidence", OValue.i 0)]

/-- A pack with non-empty evidence, for exercising the override policy. -/
def c5x_pack : Pack :=
  { template := ⟨"iso27001", "ISO 27001", "1", "en"⟩
    tenant_id := "ten1"
    generated_at := "2026-01-01T00:00:00"
    answers := [{ question_key := "k1", question_prompt := "Prompt one",
                  answer_text := some "Yes.", updated_at := none,
                  evidence_ids := some ["e1"] }]
    evidence := [⟨"e1", some "Policy", none, some "pol.pdf", none,
                  some "t/ev1/abc", none⟩] }

/-- Override rows for a different tenant only. -/
def c5w_rows : List OverrideRow :=
  [⟨"ten2", some [("passport_zip_include_evidence", OValue.b false)]⟩]

/-- An override map storing boolean `false` under a key. -/
def c7w_overrides : List (String × OValue) :=
  [("passport_zip_include_evidence", OValue.b false)]

/-- A store with no answer-evidence link table. -/
def c8w_store : Store :=
  { templates := [⟨"t1", "iso27001", "ISO 27001", "1", "en"⟩]
    questions := [⟨"q1", "t1", "k1", "Prompt one"⟩]
    hasQuestionId := true
    hasQuestionKey := false
    answers := [⟨"a1", "ten1", some "q1", none, some "Yes.", some "2026-01-01", none⟩]
    linkTable := none
    evidence := [⟨"e1", "ten1", some "Policy", none, some "pol.pdf",
                  some "2026-01-02", some "t/ev1/abc", some "hash1"⟩]
    overrideRows := [] }

/-- A store with two questions (listed out of key order) of which only one
is answered, plus a question of another template. -/
def c9w_store : Store :=
  { templates := [⟨"t1", "iso27001", "ISO 27001", "1", "en"⟩,
                  ⟨"t2", "soc2", "SOC 2", "1", "en"⟩]
    questions := [⟨"q2", "t1", "k2", "Prompt two"⟩,
                  ⟨"q1", "t1", "k1", "Prompt one"⟩,
                  ⟨"q9", "t2", "k0", "Other template"⟩]
    hasQuestionId := true
    hasQuestionKey := false
    answers := [⟨"a2", "ten1", some "q2", none, some "Answer two", some "2026-01-01", none⟩,
                ⟨"a1", "ten1", some "q1", none, some "Answer one", some "2026-01-01", none⟩,
                ⟨"a9", "ten1", some "q9", none, some "Other answer", some "2026-01-01", none⟩]
    linkTable := none
    evidence := []
    overrideRows := [] }

/-- The pack `c9w_store` assembles for tenant `ten1` and code `iso27001`. -/
def c9w_pack : Pack :=
  { template := ⟨"iso27001", "ISO 27001", "1", "en"⟩
    tenant_id := "ten1"
    generated_at := "NOW"
    answers := [{ question_key := "k1", question_prompt := "Prompt one",
                  answer_text := some "Answer one", updated_at := some "2026-01-01",
                  evidence_ids := none },
                { question_key := "k2", question_prompt := "Prompt two",
                  answer_text := some "Answer two", updated_at := some "2026-01-01",
                  evidence_ids := none }]
    evidence := [] }

/-- Baseline store for the noninterference witness. -/
def c10w_store1 : Store :=
  { templates := [⟨"t1", "iso27001", "ISO 27001", "1", "en"⟩]
    questions := [⟨"q1", "t1", "k1", "Prompt one"⟩]
    hasQuestionId := true
    hasQuestionKey := false
    answers := [⟨"a1", "ten1", some "q1", none, some "Yes.", some "2026-01-01", none⟩]
    linkTable := some [⟨"ten1", "a1", "e1"⟩]
    evidence := [⟨"e1", "ten1", some "Policy", none, some "pol.pdf",
                  some "2026-01-02", some "t/ev1/abc", some "hash1"⟩]
    overrideRows := [] }

/-- `c10w_store1` with extra rows belonging to tenant `ten2` spliced in. -/
def c10w_store2 : Store :=
  { templates := [⟨"t1", "iso27001", "ISO 27001", "1", "en"⟩]
    questions := [⟨"q1", "t1", "k1", "Prompt one"⟩]
    hasQuestionId := true
    hasQuestionKey := false
    answers := [⟨"b1", "ten2", some "q1", none, some "Other tenant", some "2026-01-03", none⟩,
                ⟨"a1", "ten1", some "q1", none, some "Yes.", some "2026-01-01", none⟩]
    linkTable := some [⟨"ten2", "b1", "e2"⟩, ⟨"ten1", "a1", "e1"⟩]
    evidence := [⟨"e2", "ten2", some "Secret", none, some "secret.pdf",
                  some "2026-01-03", some "t/ev2/zzz", some "hash2"⟩,
                 ⟨"e1", "ten1", some "Policy", none, some "pol.pdf",
                  some "2026-01-02", some "t/ev1/abc", some "hash1"⟩]
    overrideRows := [] }

/-! ## Ordering lemmas -/

theorem lexLe_total : ∀ as bs : List Char, lexLe as bs = true ∨ lexLe bs as = true := by
  intro as
  induction as with
  | nil => intro bs; left; rfl
  | cons a as ih =>
    intro bs
    cases bs with
    | nil => right; rfl
    | cons b bs =>
      simp only [lexLe]
      by_cases h : a.toNat = b.toNat
      · rw [if_pos h, if_pos h.symm]; exact ih bs
      · rw [if_neg h, if_neg (fun hh => h hh.symm)]
        simp only [decide_eq_true_eq]
        omega

theorem lexLe_trans :
    ∀ as bs cs : List Char, lexLe as bs = true → lexLe bs cs = true → lexLe as cs = true := by
  intro as
  induction as with
  | nil => intro bs cs _ _; rfl
  | cons a as ih =>
    intro bs cs hab hbc
    cases bs with
    | nil => simp [lexLe] at hab
    | cons b bs =>
      cases cs with
      | nil => simp [lexLe] at hbc
      | cons c cs =>
        simp only [lexLe] at hab hbc ⊢
        by_cases h1 : a.toNat = b.toNat <;> by_cases h2 : b.toNat = c.toNat
        · rw [if_pos (h1.trans h2)]
          rw [if_pos h1] at hab; rw [if_pos h2] at hbc
          exact ih bs cs hab hbc
        · rw [if_pos h1] at hab
          rw [if_neg h2] at hbc
          rw [if_neg (h1 ▸ h2), h1]
          exact hbc
        · rw [if_neg h1] at hab
          rw [if_pos h2] at hbc
          rw [if_neg (h2 ▸ h1), ← h2]
          exact hab
        · rw [if_neg h1] at hab
          rw [if_neg h2] at hbc
          simp only [decide_eq_true_eq] at hab hbc
          have : a.toNat < c.toNat := hab.trans hbc
          rw [if_neg (by omega)]
          simp only [decide_eq_true_eq]
          exact this

theorem strLe_total (s t : String) : strLe s t = true ∨ strLe t s = true :=
  lexLe_total s.toList t.toList

theorem strLe_trans {s t u : String} (h1 : strLe s t = true) (h2 : strLe t u = true) :
    strLe s u = true :=
  lexLe_trans s.toList t.toList u.toList h1 h2

/-- The ascending-key relation used to state sortedness of the loaded
questions. -/
def qLe (a b : QuestionRow) : Prop := strLe a.key b.key = true

theorem mem_insertByKey (y x : QuestionRow) :
    ∀ (l : List QuestionRow), y ∈ insertByKey x l ↔ y = x ∨ y ∈ l := by
  intro l
  induction l with
  | nil => simp [insertByKey]
  | cons z zs ih =>
    simp only [insertByKey]
    split
    · simp [List.mem_cons]
    · simp only [List.mem_cons, ih]
      tauto

theorem pairwise_insertByKey (x : QuestionRow) :
    ∀ (l : List QuestionRow), List.Pairwise qLe l → List.Pairwise qLe (insertByKey x l) := by
  intro l
  induction l with
  | nil => intro _; simp [insertByKey, List.pairwise_cons]
  | cons y ys ih =>
    intro h
    rw [List.pairwise_cons] at h
    simp only [insertByKey]
    split
    case isTrue hxy =>
      rw [List.pairwise_cons]
      constructor
      · intro z hz
        rcases List.mem_cons.mp hz with rfl | hz
        · exact hxy
        · exact strLe_trans hxy (h.1 z hz)
      · rw [List.pairwise_cons]; exact h
    case isFalse hxy =>
      rw [List.pairwise_cons]
      constructor
      · intro z hz
        rcases (mem_insertByKey z x ys).mp hz with hzx | hz
        · rw [hzx]
          rcases strLe_total x.key y.key with ht | ht
          · exact absurd ht hxy
          · exact ht
        · exact h.1 z hz
      · exact ih h.2

theorem mem_sortByKey {y : QuestionRow} :
    ∀ {l : List QuestionRow}, y ∈ sortByKey l ↔ y ∈ l := by
  intro l
  induction l with
  | nil => simp [sortByKey]
  | cons x xs ih =>
    simp only [sortByKey, mem_insertByKey, List.mem_cons, ih]

theorem pairwise_sortByKey : ∀ (l : List QuestionRow), List.Pairwise qLe (sortByKey l) := by
  intro l
  induction l with
  | nil => simp [sortByKey]
  | cons x xs ih => exact pairwise_insertByKey x _ ih

/-! ## Lookup and query lemmas -/

theorem last_match_aux (p : AnswerRow → Bool) :
    ∀ (rows : List AnswerRow) (acc : Option AnswerRow) (r : AnswerRow),
      rows.foldl (fun acc r => if p r then some r else acc) acc = some r →
      (r ∈ rows ∧ p r = true) ∨ acc = some r := by
  intro rows
  induction rows with
  | nil => intro acc r h0; right; exact h0
  | cons x xs ih =>
    intro acc r h0
    simp only [List.foldl_cons] at h0
    rcases ih _ r h0 with hg | heq
    · left; exact ⟨List.mem_cons_of_mem _ hg.1, hg.2⟩
    · by_cases hpx : p x = true
      · rw [if_pos hpx] at heq
        left
        cases heq
        exact ⟨List.mem_cons_self _ _, hpx⟩
      · rw [if_neg hpx] at heq
        right; exact heq

theorem last_match_mem {p : AnswerRow → Bool} {rows : List AnswerRow} {r : AnswerRow}
    (h : last_match p rows = some r) : r ∈ rows ∧ p r = true := by
  unfold last_match at h
  rcases last_match_aux p rows none r h with hg | hbad
  · exact hg
  · cases hbad

theorem find_answer_mem {hq hk : Bool} {arows : List AnswerRow} {qu : QuestionRow}
    {a : AnswerRow} (h : find_answer hq hk arows qu = some a) : a ∈ arows := by
  unfold find_answer at h
  cases hm : last_match (fun r => hq && decide (r.question_id = some qu.id)) arows with
  | some r =>
    rw [hm] at h
    cases h
    exact (last_match_mem hm).1
  | none =>
    rw [hm] at h
    exact (last_match_mem h).1

theorem mem_answers_query {s : Store} {tenant : String} {qids : List String}
    {a : AnswerRow} (h : a ∈ answers_query s tenant qids) :
    a ∈ s.answers ∧ a.tenant_id = tenant := by
  unfold answers_query at h
  split at h
  · rcases List.mem_filter.mp h with ⟨hm, hp⟩
    simp only [Bool.and_eq_true] at hp
    exact ⟨hm, of_decide_eq_true hp.1⟩
  · rcases List.mem_filter.mp h with ⟨hm, hp⟩
    exact ⟨hm, of_decide_eq_true hp⟩

theorem mem_questions_query {s : Store} {tpl : TemplateRow} {qu : QuestionRow}
    (h : qu ∈ questions_query s tpl) : qu ∈ s.questions ∧ qu.template_id = tpl.id := by
  unfold questions_query at h
  rcases List.mem_filter.mp (mem_sortByKey.mp h) with ⟨hm, hp⟩
  exact ⟨hm, of_decide_eq_true hp⟩

theorem pairwise_questions_query (s : Store) (tpl : TemplateRow) :
    List.Pairwise qLe (questions_query s tpl) :=
  pairwise_sortByKey _

/-! ## Lemmas about the assembly loop -/

theorem build_views_keys_sublist (hq hk : Bool) (arows : List AnswerRow)
    (links : List LinkRow) :
    ∀ qs : List QuestionRow,
      ((build_views hq hk arows links qs).1.map AnswerView.question_key).Sublist
        (qs.map QuestionRow.key) := by
  intro qs
  induction qs with
  | nil => simp [build_views]
  | cons qu rest ih =>
    simp only [build_views, List.map_cons]
    cases find_answer hq hk arows qu with
    | none => exact ih.cons _
    | some ans => exact ih.cons₂ _

theorem build_views_mem (hq hk : Bool) (arows : List AnswerRow) (links : List LinkRow) :
    ∀ (qs : List QuestionRow) (v : AnswerView), v ∈ (build_views hq hk arows links qs).1 →
      ∃ qu ∈ qs, ∃ ans, find_answer hq hk arows qu = some ans ∧
        v.question_key = qu.key ∧ v.question_prompt = qu.prompt ∧
        v.answer_text = ans.answer_text ∧
        v.evidence_ids =
          (if (ev_ids_for_answer links ans.id).isEmpty then none
           else some (ev_ids_for_answer links ans.id)) := by
  intro qs
  induction qs with
  | nil => intro v hv; simp [build_views] at hv
  | cons qu rest ih =>
    intro v hv
    simp only [build_views] at hv
    cases hf : find_answer hq hk arows qu with
    | none =>
      rw [hf] at hv
      rcases ih v hv with ⟨qv, hqv, hrest⟩
      exact ⟨qv, List.mem_cons_of_mem _ hqv, hrest⟩
    | some ans =>
      rw [hf] at hv
      rcases List.mem_cons.mp hv with hveq | hv
      · exact ⟨qu, List.mem_cons_self _ _, ans, hf, by rw [hveq], by rw [hveq],
          by rw [hveq], by rw [hveq]⟩
      · rcases ih v hv with ⟨qv, hqv, hrest⟩
        exact ⟨qv, List.mem_cons_of_mem _ hqv, hrest⟩

theorem build_views_ref_iff (hq hk : Bool) (arows : List AnswerRow) (links : List LinkRow) :
    ∀ (qs : List QuestionRow) (i : String),
      i ∈ (build_views hq hk arows links qs).2 ↔
        ∃ v ∈ (build_views hq hk arows links qs).1, i ∈ v.evidence_ids.getD [] := by
  intro qs
  induction qs with
  | nil => intro i; simp [build_views]
  | cons qu rest ih =>
    intro i
    simp only [build_views]
    cases hf : find_answer hq hk arows qu with
    | none => exact ih i
    | some ans =>
      simp only [List.mem_append, List.mem_cons]
      constructor
      · intro h
        rcases h with hin | hin
        · refine ⟨_, Or.inl rfl, ?_⟩
          have hne : ¬ (ev_ids_for_answer links ans.id).isEmpty = true := by
            intro he
            rw [List.isEmpty_iff] at he
            rw [he] at hin
            cases hin
          simp only [if_neg hne, Option.getD_some]
          exact hin
        · rcases (ih i).mp hin with ⟨v, hv, hvi⟩
          exact ⟨v, Or.inr hv, hvi⟩
      · rintro ⟨v, hv | hv, hvi⟩
        · rw [hv] at hvi
          simp only at hvi
          by_cases he : (ev_ids_for_answer links ans.id).isEmpty = true
          · rw [if_pos he] at hvi
            cases hvi
          · rw [if_neg he, Option.getD_some] at hvi
            exact Or.inl hvi
        · exact Or.inr ((ih i).mpr ⟨v, hv, hvi⟩)

theorem build_views_ref_link (hq hk : Bool) (arows : List AnswerRow) (links : List LinkRow) :
    ∀ (qs : List QuestionRow) (i : String), i ∈ (build_views hq hk arows links qs).2 →
      ∃ lr ∈ links, lr.evidence_id = i := by
  intro qs
  induction qs with
  | nil => intro i hi; simp [build_views] at hi
  | cons qu rest ih =>
    intro i hi
    simp only [build_views] at hi
    cases hf : find_answer hq hk arows qu with
    | none =>
      rw [hf] at hi
      exact ih i hi
    | some ans =>
      rw [hf] at hi
      rcases List.mem_append.mp hi with hin | hin
      · unfold ev_ids_for_answer at hin
        rcases List.mem_map.mp hin with ⟨lr, hlr, hlre⟩
        exact ⟨lr, (List.mem_filter.mp hlr).1, hlre⟩
      · exact ih i hin

theorem build_views_nolinks (hq hk : Bool) (arows : List AnswerRow) :
    ∀ qs : List QuestionRow,
      (∀ v ∈ (build_views hq hk arows [] qs).1, v.evidence_ids = none) ∧
      (build_views hq hk arows [] qs).2 = [] := by
  intro qs
  induction qs with
  | nil => simp [build_views]
  | cons qu rest ih =>
    simp only [build_views]
    cases find_answer hq hk arows qu with
    | none => exact ih
    | some ans =>
      constructor
      · intro v hv
        rcases List.mem_cons.mp hv with hveq | hv
        · rw [hveq]
          simp [ev_ids_for_answer]
        · exact ih.1 v hv
      · simp only [ev_ids_for_answer]
        simp [ih.2]

/-! ## Lemmas about the evidence load -/

theorem mem_evidence_query {s : Store} {tenant : String} {refIds : List String}
    {x : EvidenceView} :
    x ∈ evidence_query s tenant refIds ↔
      ∃ er ∈ s.evidence, er.tenant_id = tenant ∧ er.id ∈ refIds ∧ x = evidence_view er := by
  unfold evidence_query
  by_cases he : refIds.isEmpty = true
  · rw [if_pos he]
    rw [List.isEmpty_iff] at he
    subst he
    simp
  · rw [if_neg he]
    constructor
    · intro hx
      rcases List.mem_map.mp hx with ⟨er, hmem, hxe⟩
      rcases List.mem_filter.mp hmem with ⟨hin, hp⟩
      rcases of_decide_eq_true hp with ⟨ht, hr⟩
      exact ⟨er, hin, ht, hr, hxe.symm⟩
    · rintro ⟨er, hin, ht, hr, hxe⟩
      rw [hxe]
      exact List.mem_map_of_mem _
        (List.mem_filter.mpr ⟨hin, decide_eq_true ⟨ht, hr⟩⟩)

theorem evidence_query_ids_nodup {s : Store} {tenant : String} {refIds : List String}
    (h : (s.evidence.map EvidenceRow.id).Nodup) :
    ((evidence_query s tenant refIds).map EvidenceView.id).Nodup := by
  unfold evidence_query
  by_cases he : refIds.isEmpty = true
  · rw [if_pos he]; simp
  · rw [if_neg he]
    rw [List.map_map]
    have hfun :
        (EvidenceView.id ∘ evidence_view) = EvidenceRow.id := by
      funext er
      rfl
    rw [hfun]
    exact List.Nodup.sublist ((List.filter_sublist _).map EvidenceRow.id) h

/-! ## Query congruence lemmas -/

theorem filter_and_eq {α : Type} (p q : α → Bool) :
    ∀ l : List α, l.filter (fun a => p a && q a) = (l.filter p).filter q := by
  intro l
  induction l with
  | nil => rfl
  | cons x xs ih =>
    by_cases hp : p x = true <;> by_cases hq : q x = true <;>
      simp [List.filter_cons, hp, hq, ih]

theorem answers_query_congr {s1 s2 : Store} {tenant : String} (qids : List String)
    (hf : s1.hasQuestionId = s2.hasQuestionId)
    (ha : s1.answers.filter (fun r => decide (r.tenant_id = tenant)) =
          s2.answers.filter (fun r => decide (r.tenant_id = tenant))) :
    answers_query s1 tenant qids = answers_query s2 tenant qids := by
  unfold answers_query
  rw [hf]
  by_cases hb : (!qids.isEmpty && s2.hasQuestionId) = true
  · rw [if_pos hb, if_pos hb,
      filter_and_eq (fun r => decide (r.tenant_id = tenant)) (fun r => qidIn r qids),
      filter_and_eq (fun r => decide (r.tenant_id = tenant)) (fun r => qidIn r qids), ha]
  · rw [if_neg hb, if_neg hb, ha]

theorem tenant_links_congr {s1 s2 : Store} {tenant : String}
    (hl : s1.linkTable.map (fun ls => ls.filter (fun l => decide (l.tenant_id = tenant))) =
          s2.linkTable.map (fun ls => ls.filter (fun l => decide (l.tenant_id = tenant)))) :
    tenant_links s1 tenant = tenant_links s2 tenant := by
  unfold tenant_links
  cases h1 : s1.linkTable with
  | none =>
    cases h2 : s2.linkTable with
    | none => rfl
    | some ls2 => rw [h1, h2] at hl; cases hl
  | some ls1 =>
    cases h2 : s2.linkTable with
    | none => rw [h1, h2] at hl; cases hl
    | some ls2 =>
      rw [h1, h2] at hl
      simp only [Option.map_some'] at hl
      exact Option.some.inj hl

theorem evidence_query_congr {s1 s2 : Store} {tenant : String} (refIds : List String)
    (he : s1.evidence.filter (fun er => decide (er.tenant_id = tenant)) =
          s2.evidence.filter (fun er => decide (er.tenant_id = tenant))) :
    evidence_query s1 tenant refIds = evidence_query s2 tenant refIds := by
  unfold evidence_query
  by_cases hb : refIds.isEmpty = true
  · rw [if_pos hb, if_pos hb]
  · have hsplit : ∀ l : List EvidenceRow,
        l.filter (fun er => decide (er.tenant_id = tenant ∧ er.id ∈ refIds)) =
        (l.filter (fun er => decide (er.tenant_id = tenant))).filter
          (fun er => decide (er.id ∈ refIds)) := by
      intro l
      rw [← filter_and_eq]
      congr 1
      funext er
      simp
    rw [if_neg hb, if_neg hb, hsplit, hsplit, he]

/-! ## Claim theorems -/

/-- C8: when no candidate link-table name exists, assembly succeeds (given
the template resolves) and returns a Pack in which no AnswerView carries an
`evidence_ids` field and the evidence list is empty. -/
theorem c8_missing_link_table (s : Store) (tenant code now : String) (tpl : TemplateRow)
    (hlink : s.linkTable = none)
    (htpl : template_query s code = some tpl) :
    ∃ pack, build_pack_via_db s tenant code now = .ok pack ∧
      (∀ v ∈ pack.answers, v.evidence_ids = none) ∧ pack.evidence = [] := by
  have hlinks : tenant_links s tenant = [] := by
    unfold tenant_links; rw [hlink]
  unfold build_pack_via_db
  rw [htpl]
  refine ⟨_, rfl, ?_, ?_⟩
  · intro v hv
    simp only [hlinks] at hv
    exact (build_views_nolinks s.hasQuestionId s.hasQuestionKey _ _).1 v hv
  · show evidence_query s tenant _ = []
    rw [hlinks, (build_views_nolinks s.hasQuestionId s.hasQuestionKey _ _).2]
    rfl

/-- C8 witness: a concrete store without a link table. -/
theorem c8_missing_link_table_witness :
    ∃ pack, build_pack_via_db c8w_store "ten1" "iso27001" "NOW" = .ok pack ∧
      (∀ v ∈ pack.answers, v.evidence_ids = none) ∧ pack.evidence = [] :=
  c8_missing_link_table c8w_store "ten1" "iso27001" "NOW"
    ⟨"t1", "iso27001", "ISO 27001", "1", "en"⟩ rfl rfl

/-- C9: every AnswerView in the assembled pack comes from a question of the
requested template together with an actual tenant answer (no placeholder for
unanswered questions), and the views are in ascending question-key order. -/
theorem c9_answers_scoped_and_sorted (s : Store) (tenant code now : String)
    (tpl : TemplateRow) (pack : Pack)
    (htpl : template_query s code = some tpl)
    (hok : build_pack_via_db s tenant code now = .ok pack) :
    List.Pairwise (fun v w => strLe v.question_key w.question_key = true) pack.answers ∧
    ∀ v ∈ pack.answers, ∃ qu ∈ s.questions, qu.template_id = tpl.id ∧
      v.question_key = qu.key ∧ v.question_prompt = qu.prompt ∧
      ∃ ar ∈ s.answers, ar.tenant_id = tenant ∧ v.answer_text = ar.answer_text := by
  unfold build_pack_via_db at hok
  rw [htpl] at hok
  simp only [Except.ok.injEq] at hok
  subst hok
  constructor
  · have hp : List.Pairwise qLe (questions_query s tpl) := pairwise_questions_query s tpl
    have hpm : List.Pairwise (fun a b : String => strLe a b = true)
        ((questions_query s tpl).map QuestionRow.key) := by
      rw [List.pairwise_map]; exact hp
    have hsub := build_views_keys_sublist s.hasQuestionId s.hasQuestionKey
      (answers_query s tenant ((questions_query s tpl).map QuestionRow.id))
      (tenant_links s tenant) (questions_query s tpl)
    have hpv := List.Pairwise.sublist hsub hpm
    rw [List.pairwise_map] at hpv
    exact hpv
  · intro v hv
    rcases build_views_mem s.hasQuestionId s.hasQuestionKey
        (answers_query s tenant ((questions_query s tpl).map QuestionRow.id))
        (tenant_links s tenant) (questions_query s tpl) v hv with
      ⟨qu, hqu, ans, hans, hk, hpr, hat, _⟩
    rcases mem_questions_query hqu with ⟨hqmem, htid⟩
    rcases mem_answers_query (find_answer_mem hans) with ⟨hamem, hten⟩
    exact ⟨qu, hqmem, htid, hk, hpr, ans, hamem, hten, hat⟩

/-- C9 witness: out-of-order questions, one question of another template,
and an answer for every question; the exported answers are exactly the two
`iso27001` ones, sorted by key. -/
theorem c9_answers_scoped_and_sorted_witness :
    List.Pairwise (fun v w => strLe v.question_key w.question_key = true) c9w_pack.answers ∧
    ∀ v ∈ c9w_pack.answers, ∃ qu ∈ c9w_store.questions,
      qu.template_id = "t1" ∧
      v.question_key = qu.key ∧ v.question_prompt = qu.prompt ∧
      ∃ ar ∈ c9w_store.answers, ar.tenant_id = "ten1" ∧ v.answer_text = ar.answer_text :=
  c9_answers_scoped_and_sorted c9w_store "ten1" "iso27001" "NOW"
    ⟨"t1", "iso27001", "ISO 27001", "1", "en"⟩ c9w_pack rfl rfl

/-- C10: assembly depends only on the template and question tables and on
the tenant's own answer, link, and evidence rows; stores differing only in
other tenants' rows assemble identical packs. -/
theorem c10_tenant_noninterference (s1 s2 : Store) (tenant code now : String)
    (ht : s1.templates = s2.templates)
    (hqs : s1.questions = s2.questions)
    (hf1 : s1.hasQuestionId = s2.hasQuestionId)
    (hf2 : s1.hasQuestionKey = s2.hasQuestionKey)
    (ha : s1.answers.filter (fun r => decide (r.tenant_id = tenant)) =
          s2.answers.filter (fun r => decide (r.tenant_id = tenant)))
    (hl : s1.linkTable.map (fun ls => ls.filter (fun l => decide (l.tenant_id = tenant))) =
          s2.linkTable.map (fun ls => ls.filter (fun l => decide (l.tenant_id = tenant))))
    (he : s1.evidence.filter (fun er => decide (er.tenant_id = tenant)) =
          s2.evidence.filter (fun er => decide (er.tenant_id = tenant))) :
    build_pack_via_db s1 tenant code now = build_pack_via_db s2 tenant code now := by
  unfold build_pack_via_db
  have htq : template_query s1 code = template_query s2 code := by
    unfold template_query; rw [ht]
  rw [htq]
  cases template_query s2 code with
  | none => rfl
  | some tpl =>
    have hq2 : questions_query s1 tpl = questions_query s2 tpl := by
      unfold questions_query; rw [hqs]
    have haq := @answers_query_congr s1 s2 tenant
      ((questions_query s2 tpl).map QuestionRow.id) hf1 ha
    have hlk := @tenant_links_congr s1 s2 tenant hl
    have hev := fun refIds => @evidence_query_congr s1 s2 tenant refIds he
    simp only [hq2, haq, hlk, hf1, hf2, hev]

/-- C10 witness: splicing another tenant's answer, link and evidence rows
into the store leaves tenant `ten1`'s assembled pack unchanged. -/
theorem c10_tenant_noninterference_witness :
    build_pack_via_db c10w_store1 "ten1" "iso27001" "NOW" =
    build_pack_via_db c10w_store2 "ten1" "iso27001" "NOW" :=
  c10_tenant_noninterference c10w_store1 c10w_store2 "ten1" "iso27001" "NOW"
    rfl rfl rfl rfl (by decide) (by decide) (by decide)

/-- C1 (amended): under the schema's primary-key uniqueness of evidence ids,
and provided every tenant link row references an evidence item owned by the
same tenant, the assembled pack satisfies the evidence invariant: referenced
ids all appear among the (duplicate-free) evidence ids, and every evidence
item is referenced by some AnswerView. -/
theorem c1_pack_evidence_invariant (s : Store) (tenant code now : String) (pack : Pack)
    (hnodup : (s.evidence.map EvidenceRow.id).Nodup)
    (hcons : ∀ lr ∈ tenant_links s tenant,
      ∃ er ∈ s.evidence, er.id = lr.evidence_id ∧ er.tenant_id = tenant)
    (hok : build_pack_via_db s tenant code now = .ok pack) :
    pack_evidence_invariant pack := by
  cases htq : template_query s code with
  | none =>
    unfold build_pack_via_db at hok
    rw [htq] at hok
    cases hok
  | some tpl =>
    unfold build_pack_via_db at hok
    rw [htq] at hok
    simp only [Except.ok.injEq] at hok
    subst hok
    refine ⟨?_, ?_, ?_⟩
    · intro v hv i hi
      have hi2 : i ∈ (build_views s.hasQuestionId s.hasQuestionKey
          (answers_query s tenant ((questions_query s tpl).map QuestionRow.id))
          (tenant_links s tenant) (questions_query s tpl)).2 :=
        (build_views_ref_iff _ _ _ _ _ i).mpr ⟨v, hv, hi⟩
      rcases build_views_ref_link _ _ _ _ _ i hi2 with ⟨lr, hlr, hlre⟩
      rcases hcons lr hlr with ⟨er, herm, herid, hert⟩
      have hermem : evidence_view er ∈ evidence_query s tenant
          (build_views s.hasQuestionId s.hasQuestionKey
            (answers_query s tenant ((questions_query s tpl).map QuestionRow.id))
            (tenant_links s tenant) (questions_query s tpl)).2 :=
        mem_evidence_query.mpr ⟨er, herm, hert, by rw [herid, hlre]; exact hi2, rfl⟩
      have hidmem := List.mem_map_of_mem EvidenceView.id hermem
      have hid : (evidence_view er).id = i := by
        show er.id = i
        rw [herid, hlre]
      rw [hid] at hidmem
      exact hidmem
    · exact evidence_query_ids_nodup hnodup
    · intro ev hev
      rcases mem_evidence_query.mp hev with ⟨er, _, _, herref, hevv⟩
      have hevid : ev.id ∈ (build_views s.hasQuestionId s.hasQuestionKey
          (answers_query s tenant ((questions_query s tpl).map QuestionRow.id))
          (tenant_links s tenant) (questions_query s tpl)).2 := by
        rw [hevv]
        exact herref
      exact (build_views_ref_iff _ _ _ _ _ ev.id).mp hevid

/-- C1 witness: a tenant-consistent store whose assembled pack satisfies the
invariant. -/
theorem c1_pack_evidence_invariant_witness : pack_evidence_invariant c1w_pack :=
  c1_pack_evidence_invariant c1w_store "ten1" "iso27001" "2026-01-01T00:00:00" c1w_pack
    (by decide) (by decide) rfl

/-- C1 counterexample: the link table may cite another tenant's evidence
item (no constraint forbids it); the code then emits the id in the
AnswerView but silently drops the item from `evidence`, so the claimed
invariant fails for this store. -/
theorem c1_pack_evidence_invariant_counterexample :
    build_pack_via_db c1x_store "ten1" "iso27001" "2026-01-01T00:00:00" = .ok c1x_pack ∧
    ¬ pack_evidence_invariant c1x_pack :=
  ⟨rfl, by unfold pack_evidence_invariant; decide⟩

/-! ## Renderer lemmas -/

theorem pageBreak_notin_optPara (c : Bool) (t : String) :
    DocElem.pageBreak ∉ optPara c t := by
  unfold optPara
  split <;> simp

theorem pageBreak_notin_render_header (p : Pack) :
    DocElem.pageBreak ∉ render_header p := by
  unfold render_header
  intro h
  rcases List.mem_append.mp h with h | h
  · rcases List.mem_append.mp h with h | h
    · rcases List.mem_append.mp h with h | h
      · simp at h
      · exact pageBreak_notin_optPara _ _ h
    · exact pageBreak_notin_optPara _ _ h
  · simp at h

theorem pageBreak_notin_render_answer (a : AnswerView) :
    DocElem.pageBreak ∉ render_answer a := by
  unfold render_answer
  intro h
  rcases List.mem_append.mp h with h | h
  · rcases List.mem_append.mp h with h | h
    · rcases List.mem_append.mp h with h | h
      · rcases List.mem_append.mp h with h | h
        · rcases List.mem_append.mp h with h | h
          · simp at h
          · exact pageBreak_notin_optPara _ _ h
        · split at h <;> simp at h
      · exact pageBreak_notin_optPara _ _ h
    · exact pageBreak_notin_optPara _ _ h
  · simp at h

/-- C2 (amended): the renderer's output is the header block plus one section
per AnswerView only — it never reads the evidence list and emits no page
boundary, so no evidence section exists in the document. -/
theorem c2_renderer_ignores_evidence (p : Pack) :
    render_docx_bytes p = render_docx_bytes { p with evidence := [] } ∧
    DocElem.pageBreak ∉ render_docx_bytes p := by
  constructor
  · cases p
    rfl
  · intro h
    unfold render_docx_bytes at h
    rcases List.mem_append.mp h with h | h
    · exact pageBreak_notin_render_header p h
    · rcases List.mem_flatten.mp h with ⟨l, hl, hmem⟩
      rcases List.mem_map.mp hl with ⟨a, _, rfl⟩
      exact pageBreak_notin_render_answer a hmem

/-- C2 counterexample: a pack with one evidence item whose filename, hash
and storage key appear nowhere in the rendered document, which also contains
no page boundary — the claimed evidence sections do not exist. -/
theorem c2_renderer_counterexample : ¬ spec_evidence_sections_rendered c2x_pack := by
  unfold spec_evidence_sections_rendered doc_mentions
  decide

/-- C3 (amended): an unknown template code makes both exports fail with the
`ValueError` raised at passport.py line 85 — so no archive or document is
produced — but the error is not an `HTTPException`, so FastAPI surfaces it
as a 500 server error, not a client error. -/
theorem c3_unknown_template (s : Store) (tenant code now : String)
    (dl : String → DownloadOutcome)
    (h : template_query s code = none) :
    export_passport_zip s tenant code now dl =
      .error (.valueError ("Unknown template: " ++ code)) ∧
    export_passport_docx s tenant code now =
      .error (.valueError ("Unknown template: " ++ code)) ∧
    (PyError.valueError ("Unknown template: " ++ code)).isClientError = false := by
  have hb : build_pack_via_db s tenant code now =
      .error (.valueError ("Unknown template: " ++ code)) := by
    unfold build_pack_via_db
    rw [h]
  refine ⟨?_, ?_, rfl⟩
  · unfold export_passport_zip
    rw [hb]
  · unfold export_passport_docx
    rw [hb]

/-- C3 witness: a store whose only template has a different code. -/
theorem c3_unknown_template_witness :
    export_passport_zip c3w_store "ten1" "iso27001" "NOW"
        (fun _ => DownloadOutcome.failed "ConnectError") =
      .error (.valueError ("Unknown template: " ++ "iso27001")) ∧
    export_passport_docx c3w_store "ten1" "iso27001" "NOW" =
      .error (.valueError ("Unknown template: " ++ "iso27001")) ∧
    (PyError.valueError ("Unknown template: " ++ "iso27001")).isClientError = false :=
  c3_unknown_template c3w_store "ten1" "iso27001" "NOW"
    (fun _ => DownloadOutcome.failed "ConnectError") rfl

/-- C3 counterexample: at a concrete store without the template, the export
fails with a bare `ValueError`, which FastAPI surfaces as a server error —
not the client error the claim requires. -/
theorem c3_unknown_template_counterexample :
    export_passport_zip c3x_store "ten1" "iso27001" "NOW"
        (fun _ => DownloadOutcome.failed "ConnectError") =
      .error (.valueError "Unknown template: iso27001") ∧
    (PyError.valueError "Unknown template: iso27001").isClientError = false :=
  ⟨rfl, rfl⟩

/-! ## Archive lemmas -/

theorem process_evidence_eq (dl : String → DownloadOutcome) :
    ∀ evs : List EvidenceView,
      process_evidence dl evs =
        (evs.filterMap (successful_entry dl), evs.filterMap (failure_line dl)) := by
  intro evs
  induction evs with
  | nil => rfl
  | cons ev rest ih =>
    simp only [process_evidence, ih, List.filterMap_cons]
    unfold successful_entry failure_line
    cases ev.storage_key with
    | none => rfl
    | some sk =>
      by_cases hsk : (sk == "") = true
      · simp only [if_pos hsk]
      · simp only [if_neg hsk]
        cases dl sk with
        | ok bytes => rfl
        | failed exName => rfl

theorem successful_entry_path {dl : String → DownloadOutcome} {ev : EvidenceView}
    {z : ZipEntry} (h : successful_entry dl ev = some z) :
    ∃ name, z.path = "evidence/files/" ++ name := by
  unfold successful_entry at h
  cases hs : ev.storage_key with
  | none =>
    simp only [hs] at h
    cases h
  | some sk =>
    simp only [hs] at h
    by_cases hsk : (sk == "") = true
    · rw [if_pos hsk] at h
      cases h
    · rw [if_neg hsk] at h
      cases hdl : dl sk with
      | ok bytes =>
        simp only [hdl, Option.some.injEq] at h
        exact ⟨zip_file_name ev, by rw [← h]⟩
      | failed exName =>
        simp only [hdl] at h
        cases h

theorem files_path_ne_failed (name : String) :
    ("evidence/files/" ++ name) ≠ "evidence/_FAILED_DOWNLOADS.txt" := by
  intro h
  have h2 : ("evidence/files/" ++ name).toList =
      "evidence/_FAILED_DOWNLOADS.txt".toList := by rw [h]
  simp [String.toList] at h2

/-- C4: for every evidence list and pattern of download outcomes the archive
is completed: it contains the pack JSON entry and the rendered document
entry; the file entries are exactly one per successfully downloaded item and
all appear in the archive; the failure list holds exactly one line per
failed item; and the failed-downloads entry is present iff some item
failed. -/
theorem c4_zip_failure_containment (pack : Pack) (dl : String → DownloadOutcome) :
    (ZipEntry.mk "pack.json" (.jsonPack pack) ∈ export_zip_entries pack dl) ∧
    (ZipEntry.mk "security_passport.docx" (.docxDoc (render_docx_bytes pack)) ∈
      export_zip_entries pack dl) ∧
    (process_evidence dl pack.evidence).1 =
      pack.evidence.filterMap (successful_entry dl) ∧
    (∀ z ∈ (process_evidence dl pack.evidence).1, z ∈ export_zip_entries pack dl) ∧
    (process_evidence dl pack.evidence).2 =
      pack.evidence.filterMap (failure_line dl) ∧
    ((∃ d, ZipEntry.mk "evidence/_FAILED_DOWNLOADS.txt" d ∈ export_zip_entries pack dl) ↔
      pack.evidence.filterMap (failure_line dl) ≠ []) := by
  have hpe := process_evidence_eq dl pack.evidence
  unfold export_zip_entries
  by_cases hempty : pack.evidence.isEmpty = true
  · have hnil : pack.evidence = [] := List.isEmpty_iff.mp hempty
    rw [if_pos hempty, hnil]
    refine ⟨by simp, by simp, by simp [process_evidence], ?_, by simp [process_evidence], ?_⟩
    · intro z hz
      simp [process_evidence] at hz
    · simp only [List.filterMap_nil]
      constructor
      · rintro ⟨d, hd⟩
        rcases List.mem_cons.mp hd with hd | hd
        · rcases ZipEntry.mk.injEq _ _ _ _ ▸ hd with ⟨hp, _⟩
          exact absurd hp (by decide)
        · rcases List.mem_cons.mp hd with hd | hd
          · rcases ZipEntry.mk.injEq _ _ _ _ ▸ hd with ⟨hp, _⟩
            exact absurd hp (by decide)
          · simp at hd
      · intro h
        exact absurd rfl h
  · rw [if_neg hempty]
    refine ⟨by simp, by simp, by rw [hpe], ?_, by rw [hpe], ?_⟩
    · intro z hz
      exact List.mem_append.mpr (Or.inl (List.mem_append.mpr (Or.inr hz)))
    · constructor
      · rintro ⟨d, hd⟩
        rcases List.mem_append.mp hd with hd | hd
        · rcases List.mem_append.mp hd with hd | hd
          · rcases List.mem_append.mp hd with hd | hd
            · rcases List.mem_cons.mp hd with hd | hd
              · rcases ZipEntry.mk.injEq _ _ _ _ ▸ hd with ⟨hp, _⟩
                exact absurd hp (by decide)
              · rcases List.mem_cons.mp hd with hd | hd
                · rcases ZipEntry.mk.injEq _ _ _ _ ▸ hd with ⟨hp, _⟩
                  exact absurd hp (by decide)
                · simp at hd
            · rcases List.mem_cons.mp hd with hd | hd
              · rcases ZipEntry.mk.injEq _ _ _ _ ▸ hd with ⟨hp, _⟩
                exact absurd hp (by decide)
              · rcases List.mem_cons.mp hd with hd | hd
                · rcases ZipEntry.mk.injEq _ _ _ _ ▸ hd with ⟨hp, _⟩
                  exact absurd hp (by decide)
                · simp at hd
          · rw [hpe] at hd
            rcases List.mem_filterMap.mp hd with ⟨ev, _, hse⟩
            rcases successful_entry_path hse with ⟨name, hname⟩
            exact absurd (by simpa using hname.symm) (files_path_ne_failed name)
        · intro hcon
          rw [hpe] at hd
          simp only [hcon] at hd
          simp at hd
      · intro hne
        refine ⟨.text (String.intercalate "\n" (process_evidence dl pack.evidence).2 ++ "\n"), ?_⟩
        have hne2 : ¬ (process_evidence dl pack.evidence).2.isEmpty = true := by
          rw [hpe]
          simp only [List.isEmpty_iff]
          exact hne
        rw [if_neg hne2]
        exact List.mem_append.mpr (Or.inr (List.mem_cons_self _ _))

/-- C4 witness: one evidence item downloads, one has no storage key; the
archive holds the JSON, the document, the one file entry, and the failure
entry recording the missing key. -/
theorem c4_zip_failure_containment_witness :
    (ZipEntry.mk "pack.json" (.jsonPack c4w_pack) ∈ export_zip_entries c4w_pack c4w_dl) ∧
    (ZipEntry.mk "security_passport.docx" (.docxDoc (render_docx_bytes c4w_pack)) ∈
      export_zip_entries c4w_pack c4w_dl) ∧
    (process_evidence c4w_dl c4w_pack.evidence).1 =
      c4w_pack.evidence.filterMap (successful_entry c4w_dl) ∧
    (∀ z ∈ (process_evidence c4w_dl c4w_pack.evidence).1,
      z ∈ export_zip_entries c4w_pack c4w_dl) ∧
    (process_evidence c4w_dl c4w_pack.evidence).2 =
      c4w_pack.evidence.filterMap (failure_line c4w_dl) ∧
    ((∃ d, ZipEntry.mk "evidence/_FAILED_DOWNLOADS.txt" d ∈
        export_zip_entries c4w_pack c4w_dl) ↔
      c4w_pack.evidence.filterMap (failure_line c4w_dl) ≠ []) :=
  c4_zip_failure_containment c4w_pack c4w_dl

/-! ## Override policy theorems -/

/-- C5 (amended): inclusion defaults to true when no row or no key is
stored, and a stored value of any type never raises — but a malformed value
is interpreted by Python truthiness rather than replaced by the default:
truthy values keep the pack unchanged, falsy values (such as `0`, `""`,
`null`) exclude the evidence. -/
theorem c5_override_default_and_malformed (pack : Pack) (overrides : List (String × OValue))
    (rows : List OverrideRow) (tenant key : String) :
    ((∀ r ∈ rows, r.tenant_id ≠ tenant) → get_overrides rows tenant = []) ∧
    (lookup_override overrides key = none →
      apply_passport_overrides pack overrides key = pack) ∧
    (∀ v, lookup_override overrides key = some v → v.truthy = true →
      apply_passport_overrides pack overrides key = pack) ∧
    (∀ v, lookup_override overrides key = some v → v.truthy = false →
      (apply_passport_overrides pack overrides key).evidence = [] ∧
      ∀ a ∈ (apply_passport_overrides pack overrides key).answers,
        a.evidence_ids = none) := by
  refine ⟨?_, ?_, ?_, ?_⟩
  · intro h
    unfold get_overrides
    rw [List.find?_eq_none.mpr (fun r hr => by simpa using h r hr)]
  · intro h
    unfold apply_passport_overrides
    rw [h]
    rfl
  · intro v hl ht
    unfold apply_passport_overrides
    rw [hl]
    simp only [Option.getD_some, ht]
    rfl
  · intro v hl ht
    unfold apply_passport_overrides
    rw [hl]
    simp only [Option.getD_some, ht]
    refine ⟨rfl, ?_⟩
    intro a ha
    simp only [Bool.false_eq_true, if_false] at ha
    rcases List.mem_map.mp ha with ⟨b, _, hb⟩
    rw [← hb]

/-- C5 witness: no row for the tenant yields the empty override map, and a
pack passes through unchanged when the key is absent. -/
theorem c5_override_default_and_malformed_witness :
    get_overrides c5w_rows "ten1" = [] ∧
    apply_passport_overrides c5x_pack [] "passport_zip_include_evidence" = c5x_pack :=
  ⟨(c5_override_default_and_malformed c5x_pack [] c5w_rows "ten1"
      "passport_zip_include_evidence").1 (by decide),
   (c5_override_default_and_malformed c5x_pack [] c5w_rows "ten1"
      "passport_zip_include_evidence").2.1 rfl⟩

/-- C5 counterexample: a stored malformed value `0` (an int, not a bool) is
falsy, so the export strips the evidence instead of applying the default
(evidence included) as the claim requires. -/
theorem c5_override_malformed_counterexample :
    (OValue.i 0).isBool = false ∧
    lookup_override c5x_overrides "passport_zip_include_evidence" = some (OValue.i 0) ∧
    apply_passport_overrides c5x_pack c5x_overrides "passport_zip_include_evidence" ≠
      c5x_pack :=
  ⟨rfl, rfl, by decide⟩

/-- C7: with a falsy stored inclusion value, the override application
returns a pack with `evidence` emptied and every AnswerView's evidence-id
field removed, leaving all other fields unchanged; applying it twice equals
applying it once.  (In this embedding the operation is a pure function, so
the input pack itself is unchanged by construction, matching the code's
copy-then-modify discipline.) -/
theorem c7_exclusion_pure (pack : Pack) (overrides : List (String × OValue)) (key : String)
    (hfalse : ((lookup_override overrides key).getD (OValue.b true)).truthy = false) :
    (apply_passport_overrides pack overrides key).evidence = [] ∧
    (∀ a ∈ (apply_passport_overrides pack overrides key).answers,
      a.evidence_ids = none) ∧
    (apply_passport_overrides pack overrides key).template = pack.template ∧
    (apply_passport_overrides pack overrides key).tenant_id = pack.tenant_id ∧
    (apply_passport_overrides pack overrides key).generated_at = pack.generated_at ∧
    (apply_passport_overrides pack overrides key).answers =
      pack.answers.map (fun a => { a with evidence_ids := none }) ∧
    apply_passport_overrides (apply_passport_overrides pack overrides key) overrides key =
      apply_passport_overrides pack overrides key := by
  have happ : apply_passport_overrides pack overrides key =
      { pack with
        evidence := []
        answers := pack.answers.map (fun a => { a with evidence_ids := none }) } := by
    simp only [apply_passport_overrides, hfalse, Bool.false_eq_true, if_false]
  rw [happ]
  refine ⟨rfl, ?_, rfl, rfl, rfl, rfl, ?_⟩
  · intro a ha
    rcases List.mem_map.mp ha with ⟨b, _, hb⟩
    rw [← hb]
  · simp only [apply_passport_overrides, hfalse, Bool.false_eq_true, if_false,
      List.map_map]
    have hff : ((fun a : AnswerView => { a with evidence_ids := none }) ∘
        (fun a : AnswerView => { a with evidence_ids := none })) =
        (fun a : AnswerView => { a with evidence_ids := none }) := funext fun a => rfl
    rw [hff]

/-- C7 witness: a concrete pack and a stored boolean `false`. -/
theorem c7_exclusion_pure_witness :
    (apply_passport_overrides c5x_pack c7w_overrides "passport_zip_include_evidence").evidence
      = [] ∧
    (∀ a ∈ (apply_passport_overrides c5x_pack c7w_overrides
        "passport_zip_include_evidence").answers, a.evidence_ids = none) ∧
    (apply_passport_overrides c5x_pack c7w_overrides
        "passport_zip_include_evidence").template = c5x_pack.template ∧
    (apply_passport_overrides c5x_pack c7w_overrides
        "passport_zip_include_evidence").tenant_id = c5x_pack.tenant_id ∧
    (apply_passport_overrides c5x_pack c7w_overrides
        "passport_zip_include_evidence").generated_at = c5x_pack.generated_at ∧
    (apply_passport_overrides c5x_pack c7w_overrides
        "passport_zip_include_evidence").answers =
      c5x_pack.answers.map (fun a => { a with evidence_ids := none }) ∧
    apply_passport_overrides
        (apply_passport_overrides c5x_pack c7w_overrides "passport_zip_include_evidence")
        c7w_overrides "passport_zip_include_evidence" =
      apply_passport_overrides c5x_pack c7w_overrides "passport_zip_include_evidence" :=
  c7_exclusion_pure c5x_pack c7w_overrides "passport_zip_include_evidence" rfl

/-! ## Sanitizer lemmas -/

theorem string_mk_toList (s : String) : String.mk s.toList = s := by
  cases s
  rfl

theorem toList_mk (l : List Char) : (String.mk l).toList = l := rfl

theorem mem_dropWhile {p : Char → Bool} :
    ∀ {l : List Char} {c : Char}, c ∈ l.dropWhile p → c ∈ l := by
  intro l
  induction l with
  | nil => intro c h; simp [List.dropWhile] at h
  | cons x xs ih =>
    intro c h
    rw [List.dropWhile_cons] at h
    split at h
    · exact List.mem_cons_of_mem _ (ih h)
    · exact h

theorem mem_stripChars {l : List Char} {c : Char} (h : c ∈ stripChars l) : c ∈ l := by
  unfold stripChars at h
  exact mem_dropWhile (List.mem_reverse.mp (mem_dropWhile (List.mem_reverse.mp h)))

theorem mem_squashAux :
    ∀ (l : List Char) (b : Bool) (c : Char), c ∈ squashAux b l → allowedChar c = true := by
  intro l
  induction l with
  | nil => intro b c h; simp [squashAux] at h
  | cons x xs ih =>
    intro b c h
    unfold squashAux at h
    by_cases hx : allowedChar x = true
    · rw [if_pos hx] at h
      rcases List.mem_cons.mp h with hc | hc
      · rw [hc]; exact hx
      · exact ih false c hc
    · rw [if_neg hx] at h
      cases b with
      | true =>
        rw [if_pos rfl] at h
        exact ih true c h
      | false =>
        simp only [Bool.false_eq_true, if_false] at h
        rcases List.mem_cons.mp h with hc | hc
        · rw [hc]; decide
        · exact ih true c hc

theorem mem_sanitized_base {name : String} {c : Char} (h : c ∈ sanitized_base name) :
    allowedChar c = true :=
  mem_squashAux _ false c (mem_stripChars h)

/-- C6 (amended): for a non-empty fallback of at most 120 allowed characters
(which `<uuid>.bin` is), the sanitizer returns a non-empty name of at most
120 characters drawn from the restricted set — in particular containing no
path separator — and returns the fallback whenever sanitization yields the
empty string.  (The `".."` guarantee of the original claim fails: runs of
four or more dots survive as `".."`, see the counterexample.) -/
theorem c6_safe_zip_name_amended (name fallback : String)
    (hfne : fallback.toList ≠ [])
    (hflen : fallback.toList.length ≤ 120)
    (hfchars : ∀ c ∈ fallback.toList, allowedChar c = true) :
    (safe_zip_name name fallback).toList ≠ [] ∧
    (safe_zip_name name fallback).toList.length ≤ 120 ∧
    '/' ∉ (safe_zip_name name fallback).toList ∧
    (∀ c ∈ (safe_zip_name name fallback).toList, allowedChar c = true) ∧
    (sanitized_base name = [] → safe_zip_name name fallback = fallback) := by
  have hchars : ∀ c ∈ (safe_zip_name name fallback).toList, allowedChar c = true := by
    intro c hc
    simp only [safe_zip_name, toList_mk] at hc
    have hc2 := (List.take_sublist _ _).subset hc
    by_cases hemp : (sanitized_base name).isEmpty = true
    · rw [if_pos hemp] at hc2
      exact hfchars c hc2
    · rw [if_neg hemp] at hc2
      exact mem_sanitized_base hc2
  refine ⟨?_, ?_, ?_, hchars, ?_⟩
  · intro hnil
    simp only [safe_zip_name, toList_mk] at hnil
    rw [List.take_eq_nil_iff] at hnil
    rcases hnil with h120 | hsrc
    · cases h120
    · by_cases hemp : (sanitized_base name).isEmpty = true
      · rw [if_pos hemp] at hsrc
        exact hfne hsrc
      · rw [if_neg hemp] at hsrc
        rw [hsrc] at hemp
        exact hemp rfl
  · simp only [safe_zip_name, toList_mk]
    rw [List.length_take]
    exact min_le_left _ _
  · intro hmem
    have := hchars '/' hmem
    simp [allowedChar] at this
  · intro hsan
    simp only [safe_zip_name, hsan, List.isEmpty_nil, if_true]
    rw [List.take_of_length_le hflen, string_mk_toList]

/-- C6 witness: a filename with spaces and parentheses against a UUID-style
fallback. -/
theorem c6_safe_zip_name_amended_witness :
    (safe_zip_name "my report(final).pdf" "3f2a-77.bin").toList ≠ [] ∧
    (safe_zip_name "my report(final).pdf" "3f2a-77.bin").toList.length ≤ 120 ∧
    '/' ∉ (safe_zip_name "my report(final).pdf" "3f2a-77.bin").toList ∧
    (∀ c ∈ (safe_zip_name "my report(final).pdf" "3f2a-77.bin").toList,
      allowedChar c = true) ∧
    (sanitized_base "my report(final).pdf" = [] →
      safe_zip_name "my report(final).pdf" "3f2a-77.bin" = "3f2a-77.bin") :=
  c6_safe_zip_name_amended "my report(final).pdf" "3f2a-77.bin"
    (by decide) (by decide) (by decide)

/-- C6 counterexample: `"...."` sanitizes to `".."` (the `str.replace` is
non-overlapping), so the output contains a traversal sequence and the
claimed contract fails. -/
theorem c6_safe_zip_name_counterexample :
    safe_zip_name "...." "ev-1.bin" = ".." ∧
    ¬ spec_safe_name_ok "...." "ev-1.bin" := by
  constructor
  · rfl
  · unfold spec_safe_name_ok
    decide

end SecurityPassport
